import Mathlib

/-!
Verification of the action-translation and sandbox-client layer of
`phone_agent/lybic_client.py` (repository lybic/Open-AutoGLM).

Shallow embedding conventions:
* Python numbers: machine floats are modelled by exact rationals (`ℚ`); the
  magnitudes involved (coordinates up to 1000, screen sizes, second counts)
  are far from any binade boundary, so exact-rational and double results of
  the expressions in the source agree on the integer outputs studied here.
* Python `int(x)` truncates toward zero; it is modelled by `pyInt`.
* A Python `dict`-shaped action record (`action.get(key, default)`) is
  modelled by a structure of `Option`-typed fields with `Option.getD`.
* The asynchronous client methods are modelled as explicit state-passing
  functions; every remote request they would issue is recorded in an event
  list, and the data a remote call would return (fresh sandbox id, image
  size, decoded process output, or a raised error) is passed in as input.
* The app-name table `APP_PACKAGES` is imported by the source from
  `phone_agent/config/apps.py`, which is not part of the shown core; per the
  spec it is an arbitrary mapping from human-readable name to package
  substring, so it is a parameter here.
-/

set_option autoImplicit false

namespace PhoneAgent

/-- Python `int()` applied to an exact rational value: truncation toward
zero.  Since `q.den > 0` and `Int.tdiv` truncates toward zero, this is
exactly the mathematical truncation of `q`. -/
def pyInt (q : ℚ) : Int := q.num.tdiv (q.den : Int)

/-- `PixelLength(value=x)` of the lybic SDK. -/
structure PixelLength where
  value : Int
deriving DecidableEq

/-- The lybic action objects produced by `convert_action_to_lybic`
(`TouchTapAction`, `TouchSwipeAction`, `TouchLongPressAction`,
`KeyboardTypeAction`, `AndroidBackAction`, `AndroidHomeAction`,
`OsStartAppByNameAction`, `WaitAction`, `FinishedAction`). -/
inductive LybicAction where
  | touchTap (x y : PixelLength)
  | touchSwipe (x y : PixelLength) (direction : String) (distance : PixelLength)
  | touchLongPress (x y : PixelLength) (duration : Int)
  | keyboardType (content : String)
  | androidBack
  | androidHome
  | osStartAppByName (name : String)
  | wait (duration : Int)
  | finished (message : Option String)
deriving DecidableEq

/-- The action dict consumed by `convert_action_to_lybic`.  Key
`"_metadata"` is field `metadata`; a two-element coordinate list is a pair.
A missing key is `none`. -/
structure ActionRecord where
  metadata : Option String := none
  action : Option String := none
  element : Option (Int × Int) := none
  start : Option (Int × Int) := none
  «end» : Option (Int × Int) := none
  text : Option String := none
  app : Option String := none
  duration : Option String := none
  message : Option String := none
deriving DecidableEq

/-- `convert_relative_to_absolute` (closure inside `convert_action_to_lybic`):
`x = int(element[0] / 1000 * screen_width)`,
`y = int(element[1] / 1000 * screen_height)`. -/
def convert_relative_to_absolute (screen_width screen_height : Int)
    (element : Int × Int) : Int × Int :=
  (pyInt ((element.1 : ℚ) / 1000 * (screen_width : ℚ)),
   pyInt ((element.2 : ℚ) / 1000 * (screen_height : ℚ)))

/-- `"seconds"` removed everywhere, as `duration_str.replace("seconds", "")`
(left-to-right, non-overlapping, scanning resumes after each removal). -/
def replaceSeconds : List Char → List Char
  | 's' :: 'e' :: 'c' :: 'o' :: 'n' :: 'd' :: 's' :: rest => replaceSeconds rest
  | c :: rest => c :: replaceSeconds rest
  | [] => []

/-- Python `str.strip()`: whitespace removed from both ends. -/
def pyStrip (cs : List Char) : List Char :=
  ((cs.dropWhile Char.isWhitespace).reverse.dropWhile Char.isWhitespace).reverse

/-- Digit string read as a base-10 natural number. -/
def digitsVal (ds : List Char) : Nat :=
  ds.foldl (fun a c => a * 10 + (c.toNat - '0'.toNat)) 0

/-- A non-empty all-digit string, or failure. -/
def parseDigits (ds : List Char) : Option Nat :=
  if ds ≠ [] ∧ ds.all Char.isDigit then some (digitsVal ds) else none

/-- Optionally signed digit string (exponent part of a float literal). -/
def parseSignedNat : List Char → Option Int
  | '+' :: ds => (parseDigits ds).map (fun n => (n : Int))
  | '-' :: ds => (parseDigits ds).map (fun n => -(n : Int))
  | ds => (parseDigits ds).map (fun n => (n : Int))

/-- What may follow the mantissa of a float literal: nothing (exponent 0) or
`e`/`E` and a signed digit string. -/
def parseExpPart : List Char → Option Int
  | [] => some 0
  | 'e' :: rest => parseSignedNat rest
  | 'E' :: rest => parseSignedNat rest
  | _ => none

/-- Unsigned decimal float literal `digits [. digits] [(e|E) [sign] digits]`
as a mantissa/exponent pair: the value is `mantissa * 10 ^ exponent`.
At least one digit must be present and nothing may be left over. -/
def parseMantissaExp (cs : List Char) : Option (Int × Int) :=
  let ip := cs.takeWhile Char.isDigit
  let rest := cs.dropWhile Char.isDigit
  match rest with
  | '.' :: rest2 =>
    let fp := rest2.takeWhile Char.isDigit
    let rest3 := rest2.dropWhile Char.isDigit
    if ip = [] ∧ fp = [] then none
    else (parseExpPart rest3).map (fun e => ((digitsVal (ip ++ fp) : Int), e - (fp.length : Int)))
  | _ =>
    if ip = [] then none
    else (parseExpPart rest).map (fun e => ((digitsVal ip : Int), e))

/-- Signed decimal float literal as mantissa/exponent. -/
def pyFloatSigned : List Char → Option (Int × Int)
  | '+' :: rest => parseMantissaExp rest
  | '-' :: rest => (parseMantissaExp rest).map (fun me => (-me.1, me.2))
  | cs => parseMantissaExp cs

/-- Python `float(s)` on the decimal-literal fragment of its grammar,
returning the exact rational value, or `none` where `float` raises
`ValueError`.  (`inf`/`nan` and underscore separators are outside the
fragment exercised by this layer and are not modelled.) -/
def pyFloat? (cs : List Char) : Option ℚ :=
  (pyFloatSigned cs).map (fun me => (me.1 : ℚ) * 10 ^ me.2)

/-- `convert_action_to_lybic(action, screen_width, screen_height)`,
transliterated branch by branch from the source. -/
def convert_action_to_lybic (action : ActionRecord)
    (screen_width screen_height : Int) : LybicAction :=
  if action.metadata = some "finish" then
    LybicAction.finished action.message
  else if action.action = some "Tap" then
    let p := convert_relative_to_absolute screen_width screen_height
      (action.element.getD (500, 500))
    LybicAction.touchTap ⟨p.1⟩ ⟨p.2⟩
  else if action.action = some "Double Tap" then
    let p := convert_relative_to_absolute screen_width screen_height
      (action.element.getD (500, 500))
    LybicAction.touchTap ⟨p.1⟩ ⟨p.2⟩
  else if action.action = some "Long Press" then
    let p := convert_relative_to_absolute screen_width screen_height
      (action.element.getD (500, 500))
    LybicAction.touchLongPress ⟨p.1⟩ ⟨p.2⟩ 3000
  else if action.action = some "Swipe" then
    let ps := convert_relative_to_absolute screen_width screen_height
      (action.start.getD (500, 500))
    let pe := convert_relative_to_absolute screen_width screen_height
      (action.«end».getD (500, 500))
    let dx := pe.1 - ps.1
    let dy := pe.2 - ps.2
    if |dx| > |dy| then
      LybicAction.touchSwipe ⟨ps.1⟩ ⟨ps.2⟩ (if dx > 0 then "right" else "left") ⟨|dx|⟩
    else
      LybicAction.touchSwipe ⟨ps.1⟩ ⟨ps.2⟩ (if dy > 0 then "down" else "up") ⟨|dy|⟩
  else if action.action = some "Type" ∨ action.action = some "Type_Name" then
    LybicAction.keyboardType (action.text.getD "")
  else if action.action = some "Back" then
    LybicAction.androidBack
  else if action.action = some "Home" then
    LybicAction.androidHome
  else if action.action = some "Launch" then
    LybicAction.osStartAppByName (action.app.getD "")
  else if action.action = some "Wait" then
    let duration_str := action.duration.getD "1 seconds"
    let duration := (pyFloat? (pyStrip (replaceSeconds duration_str.data))).getD 1
    LybicAction.wait (pyInt (duration * 1000))
  else
    LybicAction.wait 1000

/-- Does `needle` occur at the head of `hay`? -/
def leadsWith : List Char → List Char → Bool
  | [], _ => true
  | _ :: _, [] => false
  | a :: as, b :: bs => a == b && leadsWith as bs

/-- Python `needle in hay` on strings: does `needle` occur contiguously
anywhere in `hay`? -/
def hasSub (needle : List Char) : List Char → Bool
  | [] => needle.isEmpty
  | b :: bs => leadsWith needle (b :: bs) || hasSub needle bs

/-- Helper for `splitLines`: accumulate the current line (reversed). -/
def splitLinesAux (acc : List Char) : List Char → List (List Char)
  | [] => [acc.reverse]
  | c :: cs =>
    if c = '\n' then acc.reverse :: splitLinesAux [] cs
    else splitLinesAux (c :: acc) cs

/-- Python `output.split("\n")`. -/
def splitLines (cs : List Char) : List (List Char) :=
  splitLinesAux [] cs

/-- The `Screenshot` dataclass. -/
structure Screenshot where
  base64_data : String
  width : Int
  height : Int
  sensitive : Bool := false
deriving DecidableEq

/-- The `LybicConfig` dataclass. -/
structure LybicConfig where
  org_id : Option String := none
  api_key : Option String := none
  endpoint : Option String := none
  sandbox_id : Option String := none
  sandbox_shape : String := "guangzhou-4c6g-android-12"
  sandbox_max_life_seconds : Int := 3600
deriving DecidableEq

/-- The mutable attributes of one `LybicPhoneClient` instance.  `clientInit`
models `_client is not None and _initialized` (always set and cleared
together by the source); `loopRunning` models
`_loop is not None and _loop.is_running()`. -/
structure ClientState where
  sandbox_id : Option String
  clientInit : Bool
  loopRunning : Bool
  screen_width : Int
  screen_height : Int
deriving DecidableEq

/-- `LybicPhoneClient.__init__`. -/
def initState (config : LybicConfig) : ClientState :=
  { sandbox_id := config.sandbox_id
    clientInit := false
    loopRunning := false
    screen_width := 1080
    screen_height := 2400 }

/-- Every outward effect a client method can perform: remote requests to the
lybic backend, the client handle's scoped acquire/release pair, and the
event-loop stop request.  `deleteSandbox` is in the vocabulary so that its
absence from a trace is a meaningful statement (the SDK offers deletion, the
shown code never calls it). -/
inductive RemoteEvent where
  | clientAcquire
  | clientRelease
  | createSandbox (name shape : String) (maxLife : Int)
  | deleteSandbox (sandboxId : String)
  | screenshotReq (sandboxId : String)
  | executeReq (sandboxId : String)
  | processReq (sandboxId : String)
  | loopStop
deriving DecidableEq

/-- Is this event the remote create-sandbox request? -/
def RemoteEvent.isCreate : RemoteEvent → Bool
  | RemoteEvent.createSandbox _ _ _ => true
  | _ => false

/-- Is this event a remote delete-sandbox request? -/
def RemoteEvent.isDelete : RemoteEvent → Bool
  | RemoteEvent.deleteSandbox _ => true
  | _ => false

/-- Is this event the client handle's paired release step (`__aexit__`)? -/
def RemoteEvent.isRelease : RemoteEvent → Bool
  | RemoteEvent.clientRelease => true
  | _ => false

/-- Python truthiness of `self.sandbox_id`: `None` and `""` are falsy. -/
def truthy : Option String → Bool
  | none => false
  | some s => s != ""

/-- `_ensure_client`: lazily build the handle and enter its context once. -/
def ensure_client (s : ClientState) : ClientState × List RemoteEvent :=
  if s.clientInit then (s, [])
  else ({ s with clientInit := true }, [RemoteEvent.clientAcquire])

/-- Result of `_ensure_sandbox`: the sandbox id handed to the caller, the
state afterwards, and the requests issued. -/
structure SandboxOut where
  id : String
  state : ClientState
  events : List RemoteEvent
deriving DecidableEq

/-- `_ensure_sandbox`: return the stored id if truthy; otherwise ensure the
client handle, issue one remote create-sandbox request (the environment's
`freshId` stands for the id the backend returns) and store the result. -/
def ensure_sandbox (config : LybicConfig) (s : ClientState) (freshId : String) :
    SandboxOut :=
  if truthy s.sandbox_id then
    { id := s.sandbox_id.getD "", state := s, events := [] }
  else
    let c := ensure_client s
    { id := freshId
      state := { c.1 with sandbox_id := some freshId }
      events := c.2 ++ [RemoteEvent.createSandbox "phone-agent-sandbox"
        config.sandbox_shape config.sandbox_max_life_seconds] }

/-- Result of one client operation: its return value, the sandbox id it
passed to its remote request, the state afterwards, and the requests
issued. -/
structure OpOut (α : Type) where
  value : α
  sandboxUsed : String
  state : ClientState
  events : List RemoteEvent

/-- `_get_screenshot_async`: ensure sandbox and client, request a
screenshot, opportunistically refresh the stored screen size from the
returned image (`imgSize`), and build the `Screenshot` value. -/
def get_screenshot_async (config : LybicConfig) (s : ClientState)
    (freshId b64 : String) (imgSize : Option (Int × Int)) : OpOut Screenshot :=
  let sb := ensure_sandbox config s freshId
  let c := ensure_client sb.state
  let s2 := match imgSize with
    | some wh => { c.1 with screen_width := wh.1, screen_height := wh.2 }
    | none => c.1
  { value := { base64_data := b64, width := s2.screen_width,
               height := s2.screen_height, sensitive := false }
    sandboxUsed := sb.id
    state := s2
    events := sb.events ++ c.2 ++ [RemoteEvent.screenshotReq sb.id] }

/-- `_execute_action_async`: ensure sandbox and client, then issue one
execute-action request for the given sandbox id. -/
def execute_action_async (config : LybicConfig) (s : ClientState)
    (freshId : String) : OpOut Unit :=
  let sb := ensure_sandbox config s freshId
  let c := ensure_client sb.state
  { value := ()
    sandboxUsed := sb.id
    state := c.1
    events := sb.events ++ c.2 ++ [RemoteEvent.executeReq sb.id] }

/-- One line of the window dump scanned as in `_get_current_app_async`:
a focus-indicator line yields the first table entry whose package substring
occurs in it. -/
def scanWindowDump (table : List (String × String)) :
    List (List Char) → String
  | [] => "System Home"
  | l :: ls =>
    if hasSub ("mCurrentFocus".data) l || hasSub ("mFocusedApp".data) l then
      match table.findSome? (fun np => if hasSub np.2.data l then some np.1 else none) with
      | some nm => nm
      | none => scanWindowDump table ls
    else scanWindowDump table ls

/-- `_get_current_app_async`: run `dumpsys window` remotely, scan the
decoded output for a known package on a focus line, and fall back to
`"System Home"`; any raised error is caught and also yields the fallback.
`remote` is the outcome of the remote process call (its decoded stdout, or
the error it raised). -/
def get_current_app_async (config : LybicConfig)
    (table : List (String × String)) (s : ClientState) (freshId : String)
    (remote : Except String String) : OpOut String :=
  let sb := ensure_sandbox config s freshId
  let c := ensure_client sb.state
  match remote with
  | Except.error _ =>
    { value := "System Home", sandboxUsed := sb.id, state := c.1
      events := sb.events ++ c.2 ++ [RemoteEvent.processReq sb.id] }
  | Except.ok out =>
    { value := scanWindowDump table (splitLines out.data)
      sandboxUsed := sb.id, state := c.1
      events := sb.events ++ c.2 ++ [RemoteEvent.processReq sb.id] }

/-- `close`: release the client handle if it was initialized, then stop the
loop if it is running.  (The loop's thread is joined with a bounded wait;
after the stop request the loop no longer counts as running.) -/
def close (s : ClientState) : ClientState × List RemoteEvent :=
  let r1 : ClientState × List RemoteEvent :=
    if s.clientInit then
      ({ s with clientInit := false }, [RemoteEvent.clientRelease])
    else (s, [])
  if r1.1.loopRunning then
    ({ r1.1 with loopRunning := false }, r1.2 ++ [RemoteEvent.loopStop])
  else (r1.1, r1.2)

/-- One blocking facade call together with the environment data its remote
interactions would produce. -/
inductive OpCall where
  | screenshot (freshId b64 : String) (imgSize : Option (Int × Int))
  | execute (freshId : String)
  | currentApp (freshId : String) (remote : Except String String)

/-- Run one facade operation; keep the state after it, the sandbox id it
used, and the requests it issued. -/
def stepOp (config : LybicConfig) (table : List (String × String))
    (s : ClientState) : OpCall → ClientState × String × List RemoteEvent
  | OpCall.screenshot f b img =>
    let r := get_screenshot_async config s f b img
    (r.state, r.sandboxUsed, r.events)
  | OpCall.execute f =>
    let r := execute_action_async config s f
    (r.state, r.sandboxUsed, r.events)
  | OpCall.currentApp f rem =>
    let r := get_current_app_async config table s f rem
    (r.state, r.sandboxUsed, r.events)

/-- Run a sequence of facade operations; collect the final state, the
sandbox ids used (in order), and all requests issued. -/
def runOps (config : LybicConfig) (table : List (String × String)) :
    ClientState → List OpCall → ClientState × List String × List RemoteEvent
  | s, [] => (s, [], [])
  | s, op :: ops =>
    let r := stepOp config table s op
    let rest := runOps config table r.1 ops
    (rest.1, r.2.1 :: rest.2.1, r.2.2 ++ rest.2.2)

/-- Example configuration with a pre-supplied sandbox identifier. -/
def cfgW : LybicConfig := { sandbox_id := some "sb-1" }

/-- Example app-name table (the shape of `APP_PACKAGES`). -/
def tableW : List (String × String) := [("Chrome", "com.android.chrome")]

/-- Example operation sequence touching all three facade operations. -/
def opsW : List OpCall :=
  [OpCall.execute "f1",
   OpCall.screenshot "f2" "img" (some (720, 1280)),
   OpCall.currentApp "f3" (Except.error "boom")]

/-- Example state with an initialized client handle and a running loop. -/
def stateM : ClientState :=
  { sandbox_id := some "sb-1", clientInit := true, loopRunning := true,
    screen_width := 1080, screen_height := 2400 }

/-- A freshly constructed client state with nothing initialized. -/
def stateZ : ClientState := initState {}

/- ------------------------------------------------------------------ -/
/- Helper lemmas.                                                      -/
/- ------------------------------------------------------------------ -/

/-- For a non-negative rational, Python truncation agrees with `⌊·⌋`. -/
theorem pyInt_eq_floor (q : ℚ) (h : 0 ≤ q) : pyInt q = ⌊q⌋ := by
  rw [Rat.floor_def, pyInt]
  exact Int.tdiv_eq_ediv (by exact_mod_cast Rat.num_nonneg.mpr h) (by positivity)

/-- The coordinate expression `int(a / 1000 * b)` of the source equals the
integer floor division `a * b / 1000` for non-negative inputs. -/
theorem pyInt_div_1000_mul (a b : Int) (ha : 0 ≤ a) (hb : 0 ≤ b) :
    pyInt ((a : ℚ) / 1000 * (b : ℚ)) = a * b / 1000 := by
  have hcast : ((a : ℚ) / 1000 * (b : ℚ)) = ((a * b : Int) : ℚ) / ((1000 : ℕ) : ℚ) := by
    push_cast
    ring
  have hpos : (0 : ℚ) ≤ (a : ℚ) / 1000 * (b : ℚ) :=
    mul_nonneg (div_nonneg (by exact_mod_cast ha) (by norm_num)) (by exact_mod_cast hb)
  rw [hcast] at hpos
  rw [hcast, pyInt_eq_floor _ hpos, Rat.floor_intCast_div_natCast]
  norm_num

/-- Truncation of a non-negative rational is non-negative. -/
theorem pyInt_nonneg {q : ℚ} (h : 0 ≤ q) : 0 ≤ pyInt q := by
  rw [pyInt_eq_floor q h]
  exact Int.floor_nonneg.mpr h

/-- Truncation of a non-negative rational bounded by an integer stays below
that integer. -/
theorem pyInt_le_of_le {q : ℚ} {n : Int} (h0 : 0 ≤ q) (h : q ≤ (n : ℚ)) :
    pyInt q ≤ n := by
  rw [pyInt_eq_floor q h0]
  calc ⌊q⌋ ≤ ⌊(n : ℚ)⌋ := Int.floor_le_floor h
    _ = n := Int.floor_intCast n

/-- The Tap branch of the translator, exposed as an equation. -/
theorem convert_tap_eq (el : Option (Int × Int)) (W H : Int) :
    convert_action_to_lybic { action := some "Tap", element := el } W H
      = LybicAction.touchTap
          ⟨(convert_relative_to_absolute W H (el.getD (500, 500))).1⟩
          ⟨(convert_relative_to_absolute W H (el.getD (500, 500))).2⟩ := rfl

/-- The Double Tap branch of the translator, exposed as an equation. -/
theorem convert_double_tap_eq (el : Option (Int × Int)) (W H : Int) :
    convert_action_to_lybic { action := some "Double Tap", element := el } W H
      = LybicAction.touchTap
          ⟨(convert_relative_to_absolute W H (el.getD (500, 500))).1⟩
          ⟨(convert_relative_to_absolute W H (el.getD (500, 500))).2⟩ := rfl

/-- The Long Press branch of the translator, exposed as an equation. -/
theorem convert_long_press_eq (el : Option (Int × Int)) (W H : Int) :
    convert_action_to_lybic { action := some "Long Press", element := el } W H
      = LybicAction.touchLongPress
          ⟨(convert_relative_to_absolute W H (el.getD (500, 500))).1⟩
          ⟨(convert_relative_to_absolute W H (el.getD (500, 500))).2⟩ 3000 := rfl

/-- The Swipe branch of the translator, exposed as an equation. -/
theorem convert_swipe_eq (st en : Option (Int × Int)) (W H : Int) :
    convert_action_to_lybic { action := some "Swipe", start := st, «end» := en } W H
      = (let ps := convert_relative_to_absolute W H (st.getD (500, 500))
         let pe := convert_relative_to_absolute W H (en.getD (500, 500))
         let dx := pe.1 - ps.1
         let dy := pe.2 - ps.2
         if |dx| > |dy| then
           LybicAction.touchSwipe ⟨ps.1⟩ ⟨ps.2⟩ (if dx > 0 then "right" else "left") ⟨|dx|⟩
         else
           LybicAction.touchSwipe ⟨ps.1⟩ ⟨ps.2⟩ (if dy > 0 then "down" else "up") ⟨|dy|⟩) := rfl

/-- The Wait branch of the translator, exposed as an equation. -/
theorem convert_wait_eq (d : Option String) (W H : Int) :
    convert_action_to_lybic { action := some "Wait", duration := d } W H
      = LybicAction.wait (pyInt
          (((pyFloat? (pyStrip (replaceSeconds (d.getD "1 seconds").data))).getD 1) * 1000)) := rfl

/- ------------------------------------------------------------------ -/
/- Claims.                                                             -/
/- ------------------------------------------------------------------ -/

/-- Claim C1 (amended): for every action record carrying an element
coordinate pair (default `[500, 500]` when absent) and non-negative inputs,
the Action Translator computes the target pixel as the TRUNCATION
`(int(x/1000*W), int(y/1000*H))` — floor division `x*W/1000` for these
non-negative inputs — not `round` as the claim states. -/
theorem coordinate_scaling_truncates (el : Option (Int × Int)) (W H : Int)
    (hx : 0 ≤ (el.getD (500, 500)).1) (hy : 0 ≤ (el.getD (500, 500)).2)
    (hW : 0 ≤ W) (hH : 0 ≤ H) :
    convert_relative_to_absolute W H (el.getD (500, 500))
      = ((el.getD (500, 500)).1 * W / 1000, (el.getD (500, 500)).2 * H / 1000) ∧
    convert_action_to_lybic { action := some "Tap", element := el } W H
      = LybicAction.touchTap ⟨(el.getD (500, 500)).1 * W / 1000⟩
          ⟨(el.getD (500, 500)).2 * H / 1000⟩ ∧
    convert_action_to_lybic { action := some "Double Tap", element := el } W H
      = LybicAction.touchTap ⟨(el.getD (500, 500)).1 * W / 1000⟩
          ⟨(el.getD (500, 500)).2 * H / 1000⟩ ∧
    convert_action_to_lybic { action := some "Long Press", element := el } W H
      = LybicAction.touchLongPress ⟨(el.getD (500, 500)).1 * W / 1000⟩
          ⟨(el.getD (500, 500)).2 * H / 1000⟩ 3000 := by
  have h1 : convert_relative_to_absolute W H (el.getD (500, 500))
      = ((el.getD (500, 500)).1 * W / 1000, (el.getD (500, 500)).2 * H / 1000) := by
    simp only [convert_relative_to_absolute,
      pyInt_div_1000_mul (el.getD (500, 500)).1 W hx hW,
      pyInt_div_1000_mul (el.getD (500, 500)).2 H hy hH]
  refine ⟨h1, ?_, ?_, ?_⟩
  · rw [convert_tap_eq, h1]
  · rw [convert_double_tap_eq, h1]
  · rw [convert_long_press_eq, h1]

/-- Witness for C1 at element `[999, 999]` on a 1080 × 2400 screen. -/
theorem coordinate_scaling_truncates_witness :
    (0 : Int) ≤ 999 ∧ (0 : Int) ≤ 1080 ∧
    convert_action_to_lybic { action := some "Tap", element := some (999, 999) } 1080 2400
      = LybicAction.touchTap ⟨1078⟩ ⟨2397⟩ := by
  refine ⟨by decide, by decide, ?_⟩
  have h := (coordinate_scaling_truncates (some (999, 999)) 1080 2400
    (by decide) (by decide) (by decide) (by decide)).2.1
  rw [h]
  decide

/-- Counterexample for C1 as stated: at element `[999, 999]` on a
1080 × 2400 screen the code produces pixel (1078, 2397) by truncation,
whereas `round` would give (1079, 2398). -/
theorem coordinate_scaling_round_cex :
    convert_action_to_lybic { action := some "Tap", element := some (999, 999) } 1080 2400
        = LybicAction.touchTap ⟨1078⟩ ⟨2397⟩ ∧
    round ((999 : ℚ) / 1000 * 1080) = 1079 ∧
    round ((999 : ℚ) / 1000 * 2400) = 2398 ∧
    ¬ (convert_action_to_lybic { action := some "Tap", element := some (999, 999) } 1080 2400
        = LybicAction.touchTap ⟨round ((999 : ℚ) / 1000 * 1080)⟩
            ⟨round ((999 : ℚ) / 1000 * 2400)⟩) := by
  have h1 : convert_action_to_lybic
      { action := some "Tap", element := some (999, 999) } 1080 2400
      = LybicAction.touchTap ⟨1078⟩ ⟨2397⟩ := by
    rw [convert_tap_eq]
    simp only [Option.getD_some, convert_relative_to_absolute]
    rw [pyInt_div_1000_mul 999 1080 (by decide) (by decide),
      pyInt_div_1000_mul 999 2400 (by decide) (by decide)]
    decide
  have h2 : round ((999 : ℚ) / 1000 * 1080) = 1079 := by
    rw [round_eq]
    norm_num
  have h3 : round ((999 : ℚ) / 1000 * 2400) = 2398 := by
    rw [round_eq]
    norm_num
  refine ⟨h1, h2, h3, ?_⟩
  rw [h1, h2, h3]
  decide

/-- Claim C2 (confirmed): for normalized coordinates in `[0, 1000]` and
non-negative screen dimensions, the converted pixel lies in
`[0, W] × [0, H]`. -/
theorem pixel_bounds (x y W H : Int)
    (hx0 : 0 ≤ x) (hx1 : x ≤ 1000) (hy0 : 0 ≤ y) (hy1 : y ≤ 1000)
    (hW : 0 ≤ W) (hH : 0 ≤ H) :
    0 ≤ (convert_relative_to_absolute W H (x, y)).1 ∧
    (convert_relative_to_absolute W H (x, y)).1 ≤ W ∧
    0 ≤ (convert_relative_to_absolute W H (x, y)).2 ∧
    (convert_relative_to_absolute W H (x, y)).2 ≤ H := by
  have qx0 : (0 : ℚ) ≤ (x : ℚ) / 1000 * (W : ℚ) :=
    mul_nonneg (div_nonneg (by exact_mod_cast hx0) (by norm_num)) (by exact_mod_cast hW)
  have qx1 : (x : ℚ) / 1000 * (W : ℚ) ≤ (W : ℚ) := by
    apply mul_le_of_le_one_left (by exact_mod_cast hW)
    rw [div_le_one (by norm_num)]
    exact_mod_cast hx1
  have qy0 : (0 : ℚ) ≤ (y : ℚ) / 1000 * (H : ℚ) :=
    mul_nonneg (div_nonneg (by exact_mod_cast hy0) (by norm_num)) (by exact_mod_cast hH)
  have qy1 : (y : ℚ) / 1000 * (H : ℚ) ≤ (H : ℚ) := by
    apply mul_le_of_le_one_left (by exact_mod_cast hH)
    rw [div_le_one (by norm_num)]
    exact_mod_cast hy1
  exact ⟨pyInt_nonneg qx0, pyInt_le_of_le qx0 qx1, pyInt_nonneg qy0, pyInt_le_of_le qy0 qy1⟩

/-- Witness for C2 at `(999, 250)` on a 1080 × 2400 screen. -/
theorem pixel_bounds_witness :
    (0 : Int) ≤ 999 ∧ (999 : Int) ≤ 1000 ∧
    (0 ≤ (convert_relative_to_absolute 1080 2400 (999, 250)).1 ∧
     (convert_relative_to_absolute 1080 2400 (999, 250)).1 ≤ 1080 ∧
     0 ≤ (convert_relative_to_absolute 1080 2400 (999, 250)).2 ∧
     (convert_relative_to_absolute 1080 2400 (999, 250)).2 ≤ 2400) :=
  ⟨by decide, by decide,
   pixel_bounds 999 250 1080 2400 (by decide) (by decide) (by decide) (by decide)
     (by decide) (by decide)⟩

/-- Claim C3 (confirmed): every Swipe record translates to a swipe from the
converted start point whose direction is one of left/right/up/down, whose
distance is the non-negative `max |dx| |dy|` of the pixel deltas, which is
horizontal exactly when `|dx| > |dy|`, and which resolves a tie or vertical
dominance to down when `dy > 0` and up otherwise. -/
theorem swipe_translation (st en : Option (Int × Int)) (W H : Int)
    (ps pe : Int × Int) (dx dy : Int)
    (hps : ps = convert_relative_to_absolute W H (st.getD (500, 500)))
    (hpe : pe = convert_relative_to_absolute W H (en.getD (500, 500)))
    (hdx : dx = pe.1 - ps.1) (hdy : dy = pe.2 - ps.2) :
    ∃ dir dist,
      convert_action_to_lybic { action := some "Swipe", start := st, «end» := en } W H
        = LybicAction.touchSwipe ⟨ps.1⟩ ⟨ps.2⟩ dir ⟨dist⟩ ∧
      (dir = "left" ∨ dir = "right" ∨ dir = "up" ∨ dir = "down") ∧
      0 ≤ dist ∧
      dist = max |dx| |dy| ∧
      ((dir = "right" ∨ dir = "left") ↔ |dy| < |dx|) ∧
      (|dx| ≤ |dy| → dir = if 0 < dy then "down" else "up") := by
  rw [convert_swipe_eq]
  dsimp only
  rw [← hps, ← hpe, ← hdx, ← hdy]
  by_cases h1 : |dx| > |dy|
  · rw [if_pos h1]
    by_cases h2 : dx > 0
    · rw [if_pos h2]
      refine ⟨"right", |dx|, rfl, by tauto, abs_nonneg dx, (max_eq_left h1.le).symm,
        ⟨fun _ => h1, fun _ => Or.inl rfl⟩, fun hle => absurd h1 (not_lt.mpr hle)⟩
    · rw [if_neg h2]
      refine ⟨"left", |dx|, rfl, by tauto, abs_nonneg dx, (max_eq_left h1.le).symm,
        ⟨fun _ => h1, fun _ => Or.inr rfl⟩, fun hle => absurd h1 (not_lt.mpr hle)⟩
  · rw [if_neg h1]
    have hle : |dx| ≤ |dy| := not_lt.mp h1
    by_cases h2 : dy > 0
    · rw [if_pos h2]
      refine ⟨"down", |dy|, rfl, by tauto, abs_nonneg dy, (max_eq_right hle).symm,
        ⟨fun hor => ?_, fun hlt => absurd hlt h1⟩, fun _ => rfl⟩
      rcases hor with h | h <;> exact absurd h (by decide)
    · rw [if_neg h2]
      refine ⟨"up", |dy|, rfl, by tauto, abs_nonneg dy, (max_eq_right hle).symm,
        ⟨fun hor => ?_, fun hlt => absurd hlt h1⟩, fun _ => rfl⟩
      rcases hor with h | h <;> exact absurd h (by decide)

/-- Witness for C3: swipe from `[100, 100]` to `[900, 100]` on a
1000 × 1000 screen (pixel deltas dx = 800, dy = 0). -/
theorem swipe_translation_witness :
    ((100, 100) : Int × Int) = convert_relative_to_absolute 1000 1000
      ((some ((100 : Int), (100 : Int))).getD (500, 500)) ∧
    (∃ dir dist,
      convert_action_to_lybic
          { action := some "Swipe", start := some (100, 100), «end» := some (900, 100) } 1000 1000
        = LybicAction.touchSwipe ⟨((100, 100) : Int × Int).1⟩ ⟨((100, 100) : Int × Int).2⟩ dir ⟨dist⟩ ∧
      (dir = "left" ∨ dir = "right" ∨ dir = "up" ∨ dir = "down") ∧
      0 ≤ dist ∧
      dist = max |(800 : Int)| |(0 : Int)| ∧
      ((dir = "right" ∨ dir = "left") ↔ |(0 : Int)| < |(800 : Int)|) ∧
      (|(800 : Int)| ≤ |(0 : Int)| → dir = if (0 : Int) < 0 then "down" else "up")) := by
  have hps : ((100, 100) : Int × Int) = convert_relative_to_absolute 1000 1000
      ((some ((100 : Int), (100 : Int))).getD (500, 500)) := by
    simp only [Option.getD_some, convert_relative_to_absolute]
    rw [pyInt_div_1000_mul 100 1000 (by decide) (by decide)]
    decide
  have hpe : ((900, 100) : Int × Int) = convert_relative_to_absolute 1000 1000
      ((some ((900 : Int), (100 : Int))).getD (500, 500)) := by
    simp only [Option.getD_some, convert_relative_to_absolute]
    rw [pyInt_div_1000_mul 900 1000 (by decide) (by decide),
      pyInt_div_1000_mul 100 1000 (by decide) (by decide)]
    decide
  exact ⟨hps, swipe_translation (some (100, 100)) (some (900, 100)) 1000 1000
    (100, 100) (900, 100) 800 0 hps hpe (by decide) (by decide)⟩

/-- Claim C4 (amended): the Wait duration string is parsed by removing the
substring `"seconds"` and surrounding whitespace and reading the remainder
as a float; on parse failure the duration defaults to 1.0 s, an absent
duration field defaults to `"1 seconds"`, and the emitted milliseconds are
the TRUNCATION `int(seconds * 1000)` — not `round` as the claim states.
`"2 seconds"` yields 2000 ms, `"abc"` 1000 ms, absent 1000 ms. -/
theorem wait_duration_translation (W H : Int) :
    (∀ ds : String, ∀ q : ℚ,
      pyFloat? (pyStrip (replaceSeconds ds.data)) = some q →
      convert_action_to_lybic { action := some "Wait", duration := some ds } W H
        = LybicAction.wait (pyInt (q * 1000))) ∧
    (∀ ds : String,
      pyFloat? (pyStrip (replaceSeconds ds.data)) = none →
      convert_action_to_lybic { action := some "Wait", duration := some ds } W H
        = LybicAction.wait 1000) ∧
    convert_action_to_lybic { action := some "Wait" } W H = LybicAction.wait 1000 ∧
    convert_action_to_lybic { action := some "Wait", duration := some "2 seconds" } W H
      = LybicAction.wait 2000 ∧
    convert_action_to_lybic { action := some "Wait", duration := some "abc" } W H
      = LybicAction.wait 1000 := by
  have hone : pyInt ((1 : ℚ) * 1000) = 1000 := by
    have h : (1 : ℚ) * 1000 = 1000 := by norm_num
    rw [h]
    rfl
  refine ⟨?_, ?_, ?_, ?_, ?_⟩
  · intro ds q h
    rw [convert_wait_eq (some ds) W H]
    rw [Option.getD_some, h, Option.getD_some]
  · intro ds h
    rw [convert_wait_eq (some ds) W H]
    rw [Option.getD_some, h, Option.getD_none, hone]
  · rw [convert_wait_eq none W H]
    have hp : pyFloatSigned (pyStrip (replaceSeconds ("1 seconds").data)) = some (1, 0) := by
      decide
    rw [Option.getD_none]
    show LybicAction.wait (pyInt (((pyFloat?
      (pyStrip (replaceSeconds ("1 seconds").data))).getD 1) * 1000)) = _
    rw [pyFloat?, hp, Option.map_some', Option.getD_some]
    have h : ((1 : Int) : ℚ) * 10 ^ (0 : Int) * 1000 = 1000 := by norm_num
    rw [h]
    rfl
  · rw [convert_wait_eq (some "2 seconds") W H]
    have hp : pyFloatSigned (pyStrip (replaceSeconds ("2 seconds").data)) = some (2, 0) := by
      decide
    rw [Option.getD_some, pyFloat?, hp, Option.map_some', Option.getD_some]
    have h : ((2 : Int) : ℚ) * 10 ^ (0 : Int) * 1000 = 2000 := by norm_num
    rw [h]
    rfl
  · rw [convert_wait_eq (some "abc") W H]
    have hp : pyFloatSigned (pyStrip (replaceSeconds ("abc").data)) = none := by decide
    rw [Option.getD_some, pyFloat?, hp, Option.map_none', Option.getD_none, hone]

/-- Witness for C4: `"2 seconds"` parses to 2 and yields
`int(2 * 1000) = 2000` milliseconds. -/
theorem wait_duration_translation_witness :
    pyFloat? (pyStrip (replaceSeconds ("2 seconds").data)) = some 2 ∧
    convert_action_to_lybic { action := some "Wait", duration := some "2 seconds" } 1080 2400
      = LybicAction.wait (pyInt ((2 : ℚ) * 1000)) := by
  have hp : pyFloatSigned (pyStrip (replaceSeconds ("2 seconds").data)) = some (2, 0) := by
    decide
  have hq : pyFloat? (pyStrip (replaceSeconds ("2 seconds").data)) = some 2 := by
    rw [pyFloat?, hp, Option.map_some']
    norm_num
  exact ⟨hq, (wait_duration_translation 1080 2400).1 "2 seconds" 2 hq⟩

/-- Counterexample for C4 as stated: for duration `"0.9999 seconds"` the
code emits `int(999.9) = 999` ms, whereas `round(0.9999 * 1000) = 1000`. -/
theorem wait_duration_round_cex :
    convert_action_to_lybic
        { action := some "Wait", duration := some "0.9999 seconds" } 1080 2400
      = LybicAction.wait 999 ∧
    round ((9999 : ℚ) / 10000 * 1000) = 1000 ∧
    ¬ (convert_action_to_lybic
        { action := some "Wait", duration := some "0.9999 seconds" } 1080 2400
      = LybicAction.wait (round ((9999 : ℚ) / 10000 * 1000))) := by
  have h1 : convert_action_to_lybic
      { action := some "Wait", duration := some "0.9999 seconds" } 1080 2400
      = LybicAction.wait 999 := by
    rw [convert_wait_eq (some "0.9999 seconds") 1080 2400]
    have hp : pyFloatSigned (pyStrip (replaceSeconds ("0.9999 seconds").data))
        = some (9999, -4) := by decide
    rw [Option.getD_some, pyFloat?, hp, Option.map_some', Option.getD_some]
    have h : ((9999 : Int) : ℚ) * 10 ^ (-4 : Int) * 1000 = 9999 / 10 := by norm_num
    rw [h, pyInt_eq_floor _ (by norm_num)]
    norm_num
  have h2 : round ((9999 : ℚ) / 10000 * 1000) = 1000 := by
    rw [round_eq]
    norm_num
  refine ⟨h1, h2, ?_⟩
  rw [h1, h2]
  decide

/-- Claim C5 (confirmed): a record that is not a finish marker and whose
action name is none of the ten known names (including an absent name)
translates to a 1000 ms wait; the translator is total, so no error is
possible. -/
theorem unknown_action_wait (r : ActionRecord) (W H : Int)
    (hmeta : r.metadata ≠ some "finish")
    (hname : ∀ n ∈ (["Tap", "Double Tap", "Long Press", "Swipe", "Type", "Type_Name",
      "Back", "Home", "Launch", "Wait"] : List String), r.action ≠ some n) :
    convert_action_to_lybic r W H = LybicAction.wait 1000 := by
  have h1 := hname "Tap" (by simp)
  have h2 := hname "Double Tap" (by simp)
  have h3 := hname "Long Press" (by simp)
  have h4 := hname "Swipe" (by simp)
  have h5 := hname "Type" (by simp)
  have h6 := hname "Type_Name" (by simp)
  have h7 := hname "Back" (by simp)
  have h8 := hname "Home" (by simp)
  have h9 := hname "Launch" (by simp)
  have h10 := hname "Wait" (by simp)
  unfold convert_action_to_lybic
  rw [if_neg hmeta, if_neg h1, if_neg h2, if_neg h3, if_neg h4,
    if_neg (not_or.mpr ⟨h5, h6⟩), if_neg h7, if_neg h8, if_neg h9, if_neg h10]

/-- Witness for C5: the unknown action name `"Pinch"`. -/
theorem unknown_action_wait_witness :
    (({ action := some "Pinch" } : ActionRecord).metadata ≠ some "finish") ∧
    convert_action_to_lybic { action := some "Pinch" } 1080 2400
      = LybicAction.wait 1000 :=
  ⟨by decide, unknown_action_wait { action := some "Pinch" } 1080 2400
    (by decide) (by decide)⟩

/-- Claim C6 (confirmed): a record whose `_metadata` equals `"finish"`
translates to `FinishedAction` carrying the record's message field
verbatim (`none` when absent). -/
theorem finish_passthrough (r : ActionRecord) (W H : Int)
    (h : r.metadata = some "finish") :
    convert_action_to_lybic r W H = LybicAction.finished r.message := by
  unfold convert_action_to_lybic
  rw [if_pos h]

/-- Witness for C6: message `"done"` is carried through; an absent message
yields a finish primitive with no message. -/
theorem finish_passthrough_witness :
    (({ metadata := some "finish", message := some "done" } : ActionRecord).metadata
      = some "finish") ∧
    convert_action_to_lybic { metadata := some "finish", message := some "done" } 1080 2400
      = LybicAction.finished (some "done") ∧
    convert_action_to_lybic { metadata := some "finish" } 1080 2400
      = LybicAction.finished none :=
  ⟨rfl, finish_passthrough { metadata := some "finish", message := some "done" } 1080 2400 rfl,
   finish_passthrough { metadata := some "finish" } 1080 2400 rfl⟩

/-- A truthy stored sandbox id makes `_ensure_sandbox` a pure read: same
state, no requests. -/
theorem ensure_sandbox_truthy (config : LybicConfig) (s : ClientState)
    (f sid : String) (hs : s.sandbox_id = some sid) (hne : sid ≠ "") :
    ensure_sandbox config s f = { id := sid, state := s, events := [] } := by
  unfold ensure_sandbox
  rw [hs]
  have ht : truthy (some sid) = true := by
    simp only [truthy, bne_iff_ne, ne_eq]
    exact hne
  rw [if_pos ht]
  rfl

/-- `_ensure_client` never touches the sandbox id and never issues a
create-sandbox request. -/
theorem ensure_client_spec (s : ClientState) :
    (ensure_client s).1.sandbox_id = s.sandbox_id ∧
    ((ensure_client s).2.all (fun e => !e.isCreate)) = true := by
  unfold ensure_client
  split <;> simp [RemoteEvent.isCreate]

/-- The event list of one operation after a pure-read `_ensure_sandbox`
contains no create-sandbox request. -/
theorem all_not_create_aux (l : List RemoteEvent) (e : RemoteEvent)
    (hl : (l.all (fun x => !x.isCreate)) = true) (he : e.isCreate = false) :
    ((([] : List RemoteEvent) ++ l ++ [e]).all (fun x => !x.isCreate)) = true := by
  rw [List.nil_append, List.all_append, hl, List.all_cons, List.all_nil, he]
  rfl

/-- One facade operation on a state holding a non-empty sandbox id: the
state keeps that id, the operation uses it, and no create-sandbox request
is issued. -/
theorem stepOp_stable (config : LybicConfig) (table : List (String × String))
    (s : ClientState) (sid : String) (op : OpCall)
    (hs : s.sandbox_id = some sid) (hne : sid ≠ "") :
    (stepOp config table s op).1.sandbox_id = some sid ∧
    (stepOp config table s op).2.1 = sid ∧
    ((stepOp config table s op).2.2.all (fun e => !e.isCreate)) = true := by
  obtain ⟨hc1, hc2⟩ := ensure_client_spec s
  cases op with
  | screenshot f b img =>
    simp only [stepOp, get_screenshot_async, ensure_sandbox_truthy config s f sid hs hne]
    cases img with
    | none =>
      exact ⟨by rw [hc1, hs], trivial, all_not_create_aux _ _ hc2 rfl⟩
    | some wh =>
      refine ⟨?_, trivial, all_not_create_aux _ _ hc2 rfl⟩
      show (ensure_client s).1.sandbox_id = some sid
      rw [hc1, hs]
  | execute f =>
    simp only [stepOp, execute_action_async, ensure_sandbox_truthy config s f sid hs hne]
    exact ⟨by rw [hc1, hs], trivial, all_not_create_aux _ _ hc2 rfl⟩
  | currentApp f rem =>
    simp only [stepOp, get_current_app_async, ensure_sandbox_truthy config s f sid hs hne]
    cases rem with
    | error e =>
      refine ⟨?_, rfl, all_not_create_aux _ _ hc2 rfl⟩
      show (ensure_client s).1.sandbox_id = some sid
      rw [hc1, hs]
    | ok out =>
      refine ⟨?_, rfl, all_not_create_aux _ _ hc2 rfl⟩
      show (ensure_client s).1.sandbox_id = some sid
      rw [hc1, hs]

/-- Claim C7 (confirmed): a sandbox id assigned at construction from the
configuration (or already stored) that is non-empty is returned and used by
every subsequent screenshot / execute-action / current-app operation, is
never reassigned, and no remote create-sandbox request is ever issued. -/
theorem sandbox_id_stable (config : LybicConfig) (table : List (String × String))
    (sid : String) (s : ClientState) (ops : List OpCall)
    (hne : sid ≠ "") (hs : s.sandbox_id = some sid) :
    (initState config).sandbox_id = config.sandbox_id ∧
    (runOps config table s ops).1.sandbox_id = some sid ∧
    (∀ u ∈ (runOps config table s ops).2.1, u = sid) ∧
    ((runOps config table s ops).2.2.all (fun e => !e.isCreate)) = true := by
  refine ⟨rfl, ?_⟩
  induction ops generalizing s with
  | nil =>
    refine ⟨hs, ?_, rfl⟩
    intro u hu
    simp [runOps] at hu
  | cons op ops ih =>
    obtain ⟨h1, h2, h3⟩ := stepOp_stable config table s sid op hs hne
    obtain ⟨h4, h5, h6⟩ := ih _ h1
    refine ⟨h4, ?_, ?_⟩
    · intro u hu
      simp only [runOps, List.mem_cons] at hu
      rcases hu with hu | hu
      · rw [hu, h2]
      · exact h5 u hu
    · simp only [runOps, List.all_append]
      rw [h3, h6]
      rfl

/-- Witness for C7: a pre-configured id `"sb-1"` across an execute, a
screenshot and a current-app call. -/
theorem sandbox_id_stable_witness :
    ("sb-1" : String) ≠ "" ∧
    (initState cfgW).sandbox_id = some "sb-1" ∧
    ((runOps cfgW tableW (initState cfgW) opsW).1.sandbox_id = some "sb-1" ∧
     (∀ u ∈ (runOps cfgW tableW (initState cfgW) opsW).2.1, u = "sb-1") ∧
     ((runOps cfgW tableW (initState cfgW) opsW).2.2.all (fun e => !e.isCreate)) = true) :=
  ⟨by decide, rfl,
   (sandbox_id_stable cfgW tableW "sb-1" (initState cfgW) opsW (by decide) rfl).2⟩

/-- Claim C8 (confirmed): close is idempotent — across two successive
closes the paired release step runs at most once, the second close is a
no-op with no events, and closing a client with nothing initialized leaves
the state unchanged and performs nothing. -/
theorem close_idempotent (s : ClientState) :
    (((close s).2 ++ (close (close s).1).2).filter RemoteEvent.isRelease).length ≤ 1 ∧
    close (close s).1 = ((close s).1, []) ∧
    (s.clientInit = false → s.loopRunning = false → close s = (s, [])) := by
  obtain ⟨sb, ci, lr, sw, sh⟩ := s
  cases ci <;> cases lr <;> simp [close, RemoteEvent.isRelease]

/-- Witness for C8: double close of a fully initialized client, and close
of a freshly constructed client. -/
theorem close_idempotent_witness :
    (((close stateM).2 ++ (close (close stateM).1).2).filter RemoteEvent.isRelease).length ≤ 1 ∧
    close (close stateM).1 = ((close stateM).1, []) ∧
    close stateZ = (stateZ, []) :=
  ⟨(close_idempotent stateM).1, (close_idempotent stateM).2.1,
   (close_idempotent stateZ).2.2 rfl rfl⟩

/-- If no focus-indicator line of the dump contains a known package
substring, the scan falls through to `"System Home"`. -/
theorem scanWindowDump_no_match (table : List (String × String))
    (lines : List (List Char))
    (h : ∀ l ∈ lines,
      (hasSub ("mCurrentFocus".data) l || hasSub ("mFocusedApp".data) l) = true →
      ∀ p ∈ table, hasSub p.2.data l = false) :
    scanWindowDump table lines = "System Home" := by
  induction lines with
  | nil => rfl
  | cons l ls ih =>
    unfold scanWindowDump
    by_cases hf : (hasSub ("mCurrentFocus".data) l || hasSub ("mFocusedApp".data) l) = true
    · rw [if_pos hf]
      have hnone : table.findSome?
          (fun np => if hasSub np.2.data l then some np.1 else none) = none := by
        rw [List.findSome?_eq_none_iff]
        intro p hp
        rw [if_neg]
        rw [h l (List.mem_cons_self l ls) hf p hp]
        exact Bool.false_ne_true
      rw [hnone]
      exact ih (fun m hm => h m (List.mem_cons_of_mem l hm))
    · rw [if_neg hf]
      exact ih (fun m hm => h m (List.mem_cons_of_mem l hm))

/-- Claim C9 (confirmed): the current-app lookup returns the fixed fallback
`"System Home"` whenever the remote call raises any error, and whenever its
decoded output has no focus-indicator line containing a known package; the
lookup is a total function, so no exception reaches the caller. -/
theorem current_app_fallback (config : LybicConfig)
    (table : List (String × String)) (s : ClientState) (freshId : String)
    (remote : Except String String) :
    (∀ err, remote = Except.error err →
      (get_current_app_async config table s freshId remote).value = "System Home") ∧
    (∀ out, remote = Except.ok out →
      (∀ l ∈ splitLines out.data,
        (hasSub ("mCurrentFocus".data) l || hasSub ("mFocusedApp".data) l) = true →
        ∀ p ∈ table, hasSub p.2.data l = false) →
      (get_current_app_async config table s freshId remote).value = "System Home") := by
  constructor
  · intro err he
    subst he
    rfl
  · intro out ho hnm
    subst ho
    show scanWindowDump table (splitLines out.data) = "System Home"
    exact scanWindowDump_no_match table _ hnm

/-- Witness for C9: a raised backend error, and a dump whose focus line
contains no known package, both yield `"System Home"`. -/
theorem current_app_fallback_witness :
    (get_current_app_async {} tableW stateZ "f" (Except.error "boom")).value
      = "System Home" ∧
    (get_current_app_async {} tableW stateZ "f" (Except.ok "mCurrentFocus other")).value
      = "System Home" := by
  refine ⟨(current_app_fallback {} tableW stateZ "f" (Except.error "boom")).1 "boom" rfl,
    (current_app_fallback {} tableW stateZ "f" (Except.ok "mCurrentFocus other")).2
      "mCurrentFocus other" rfl ?_⟩
  decide

/-- Claim C10 (confirmed): close leaves the stored sandbox identifier
exactly as it was and issues no remote delete-sandbox request. -/
theorem close_preserves_sandbox (s : ClientState) :
    (close s).1.sandbox_id = s.sandbox_id ∧
    ((close s).2.all (fun e => !e.isDelete)) = true := by
  obtain ⟨sb, ci, lr, sw, sh⟩ := s
  cases ci <;> cases lr <;> simp [close, RemoteEvent.isDelete]

end PhoneAgent
